import Mathlib

/-!
Verification of the RIPE Atlas probe scraper (`Scrapping.py`).

The development embeds the program's data model and operations:
* a JSON value model for API response bodies and record field values;
* `get_probe_info`, the fetcher that normalizes one HTTP response into a
  ten-field record dictionary (or an absence / error signal);
* `collect_probes`, the driver loop accumulating records over an id range;
* `filter_probes`, the record filter with its four optional criteria;
* `get_output_filename` and `export_data`, the exporter.
-/

mutual
/-- JSON values, as delivered by the API and stored in record dictionaries.
Objects and arrays are mutual inductives so that decidable equality can be
derived.  Numbers are modelled as integers: every number the program
computes with (HTTP status codes, probe ids, epoch timestamps) is integral. -/
inductive Json where
  | null : Json
  | bool (b : Bool) : Json
  | num (n : Int) : Json
  | str (s : String) : Json
  | arr (xs : JsonArr) : Json
  | obj (kvs : JsonObj) : Json
deriving DecidableEq, Repr

inductive JsonArr where
  | nil : JsonArr
  | cons (hd : Json) (tl : JsonArr) : JsonArr
deriving DecidableEq, Repr

inductive JsonObj where
  | nil : JsonObj
  | cons (k : String) (v : Json) (tl : JsonObj) : JsonObj
deriving DecidableEq, Repr
end

/-- Python `dict.get(k)`: the value bound to the first occurrence of `k`,
`none` when the key is absent. -/
def JsonObj.get (kvs : JsonObj) (k : String) : Option Json :=
  match kvs with
  | .nil => none
  | .cons k2 v tl => if k2 = k then some v else tl.get k

/-- Python truthiness of a JSON value (`None`, `False`, `0`, `""`, `[]`,
`{}` are falsy). -/
def Json.truthy : Json → Bool
  | .null => false
  | .bool b => b
  | .num n => n != 0
  | .str s => s != ""
  | .arr .nil => false
  | .arr (.cons _ _) => true
  | .obj .nil => false
  | .obj (.cons _ _ _) => true

/-- Python equality between a JSON value and a Python `str`: true exactly
when the value is that string (cross-type comparisons are unequal). -/
def Json.eqStr : Json → String → Bool
  | .str s, c => s = c
  | _, _ => false

/-- A naive `datetime` (no timezone), as produced by
`datetime.strptime`.  Comparison is lexicographic on the six components,
exactly Python's `datetime` ordering. -/
structure DateTime where
  year : Nat
  month : Nat
  day : Nat
  hour : Nat
  minute : Nat
  second : Nat
deriving DecidableEq, Repr

/-- Python `<` on `datetime`: lexicographic on
(year, month, day, hour, minute, second). -/
def DateTime.lt (a b : DateTime) : Bool :=
  if a.year < b.year then true else if b.year < a.year then false
  else if a.month < b.month then true else if b.month < a.month then false
  else if a.day < b.day then true else if b.day < a.day then false
  else if a.hour < b.hour then true else if b.hour < a.hour then false
  else if a.minute < b.minute then true else if b.minute < a.minute then false
  else decide (a.second < b.second)

/-- The `First Connected` / `Last Connected` field of a record.  In the
program it is a string that is either the absent-marker `"N/A"` or a
`'%Y-%m-%d %H:%M:%S'` rendering of a timestamp; `datetime.strptime` with
that same format recovers the rendered instant.  The two shapes are
embedded as the two constructors. -/
inductive TimeField where
  | na : TimeField
  | stamp (d : DateTime) : TimeField
deriving DecidableEq, Repr

/-- A normalized probe record, the shape built by `get_probe_info`: the
filter reads `Pays`, `Status`, `First Connected` and `Last Connected`;
the remaining fields ride along unchanged. -/
structure Probe where
  id : Json
  ipv4 : Json
  asn : Json
  pays : Json
  longitude : Json
  latitude : Json
  status : Json
  firstConnected : TimeField
  lastConnected : TimeField
  tags : Json
deriving DecidableEq, Repr

/-- The first `continue` test of `filter_probes`:
`if country and probe["Pays"] != country`.  A `None` or empty-string
country is falsy, so it never skips. -/
def countrySkip : Option String → Probe → Bool
  | none, _ => false
  | some c, p => if c = "" then false else ! p.pays.eqStr c

/-- The second `continue` test:
`if connected is not None and (probe["Status"] == "Connected") != connected`. -/
def connectedSkip : Option Bool → Probe → Bool
  | none, _ => false
  | some c, p => p.status.eqStr "Connected" != c

/-- The third `continue` test: when a threshold is supplied and the field
is not the absent-marker, parse it and skip the record when the parsed
instant is strictly earlier than the threshold.  (`datetime` objects are
always truthy, so `if first_connected_after` is just a `None` test.) -/
def firstSkip : Option DateTime → Probe → Bool
  | none, _ => false
  | some d, p =>
    match p.firstConnected with
    | .na => false
    | .stamp ft => ft.lt d

/-- The fourth `continue` test, same semantics against `Last Connected`. -/
def lastSkip : Option DateTime → Probe → Bool
  | none, _ => false
  | some d, p =>
    match p.lastConnected with
    | .na => false
    | .stamp lt2 => lt2.lt d

/-- `filter_probes` from `Scrapping.py`: walk the list, `continue` past a
record as soon as one test fires, otherwise append it. -/
def filter_probes (probes : List Probe) (country : Option String)
    (connected : Option Bool)
    (first_connected_after last_connected_after : Option DateTime) : List Probe :=
  match probes with
  | [] => []
  | p :: rest =>
    if countrySkip country p then
      filter_probes rest country connected first_connected_after last_connected_after
    else if connectedSkip connected p then
      filter_probes rest country connected first_connected_after last_connected_after
    else if firstSkip first_connected_after p then
      filter_probes rest country connected first_connected_after last_connected_after
    else if lastSkip last_connected_after p then
      filter_probes rest country connected first_connected_after last_connected_after
    else
      p :: filter_probes rest country connected first_connected_after last_connected_after

/-- A record survives `filter_probes` exactly when none of the four
`continue` tests fires. -/
def keepProbe (country : Option String) (connected : Option Bool)
    (fa la : Option DateTime) (p : Probe) : Bool :=
  !countrySkip country p && !connectedSkip connected p
    && !firstSkip fa p && !lastSkip la p

/-- The four optional criteria accepted by `filter_probes`, bundled the way
`main` passes them (unset criterion = `none` = no constraint). -/
structure Criteria where
  country : Option String
  connected : Option Bool
  firstConnectedAfter : Option DateTime
  lastConnectedAfter : Option DateTime
deriving DecidableEq, Repr

/-- `filter_probes` applied to a bundled criteria record. -/
def applyFilter (c : Criteria) (probes : List Probe) : List Probe :=
  filter_probes probes c.country c.connected c.firstConnectedAfter c.lastConnectedAfter

/-- Supplying two criteria records together: each slot takes whichever of
the two sets it. -/
def Criteria.merge (a b : Criteria) : Criteria :=
  { country := a.country <|> b.country
    connected := a.connected <|> b.connected
    firstConnectedAfter := a.firstConnectedAfter <|> b.firstConnectedAfter
    lastConnectedAfter := a.lastConnectedAfter <|> b.lastConnectedAfter }

/-- Two criteria records constrain disjoint slots: no slot is set by both
(so "A and B supplied together" is unambiguous). -/
def Criteria.DisjointWith (a b : Criteria) : Prop :=
  (a.country = none ∨ b.country = none)
    ∧ (a.connected = none ∨ b.connected = none)
    ∧ (a.firstConnectedAfter = none ∨ b.firstConnectedAfter = none)
    ∧ (a.lastConnectedAfter = none ∨ b.lastConnectedAfter = none)

/-- Record id 1 of the spec's concrete scenarios: French, connected,
first connected 2020-01-01 00:00:00. -/
def probe1 : Probe :=
  { id := .num 1, ipv4 := .str "N/A", asn := .str "N/A", pays := .str "FR",
    longitude := .str "N/A", latitude := .str "N/A", status := .str "Connected",
    firstConnected := .stamp ⟨2020, 1, 1, 0, 0, 0⟩, lastConnected := .na,
    tags := .str "N/A" }

/-- Record id 2 of the spec's concrete scenarios: US, disconnected, first
connected unknown (absent-marker). -/
def probe2 : Probe :=
  { id := .num 2, ipv4 := .str "N/A", asn := .str "N/A", pays := .str "US",
    longitude := .str "N/A", latitude := .str "N/A", status := .str "Disconnected",
    firstConnected := .na, lastConnected := .na, tags := .str "N/A" }

/-- The 2021-01-01 threshold of concrete scenario 3 (a `%Y-%m-%d` parse:
midnight). -/
def date20210101 : DateTime := ⟨2021, 1, 1, 0, 0, 0⟩

instance (a b : Criteria) : Decidable (a.DisjointWith b) := by
  unfold Criteria.DisjointWith
  infer_instance

/-- Criteria record supplying only `country = "FR"` (scenario 1). -/
def critA : Criteria := ⟨some "FR", none, none, none⟩

/-- Criteria record supplying only `connected = true`. -/
def critB : Criteria := ⟨none, some true, none, none⟩

/-- One HTTP response, as the fetcher sees it: a status code and a parsed
JSON body. -/
structure Response where
  status_code : Nat
  body : Json
deriving DecidableEq, Repr

/-- Outcome of `get_probe_info`: an uncaught Python exception, the `None`
returned on a non-200 status, or the normalized record dictionary. -/
inductive FetchResult where
  | error : FetchResult
  | absent : FetchResult
  | record (r : List (String × Json)) : FetchResult
deriving DecidableEq, Repr

/-- Key membership in a JSON object (`"k" in d` for a Python dict). -/
def JsonObj.hasKey (kvs : JsonObj) (k : String) : Bool :=
  (kvs.get k).isSome

/-- Value membership in a JSON array (`x in l` for a Python list). -/
def JsonArr.containsVal : JsonArr → Json → Bool
  | .nil, _ => false
  | .cons h t, v => h == v || t.containsVal v

/-- Python 2-element unpacking `longitude, latitude = seq`: succeeds on a
2-element list, a 2-character string (yielding its characters) or a
2-entry dict (yielding its keys); anything else raises (`none`). -/
def unpackPair : Json → Option (Json × Json)
  | .arr (.cons x (.cons y .nil)) => some (x, y)
  | .str s =>
    match s.data with
    | [c1, c2] => some (.str (String.mk [c1]), .str (String.mk [c2]))
    | _ => none
  | .obj (.cons k1 _ (.cons k2 _ .nil)) => some (.str k1, .str k2)
  | _ => none

/-- Substring containment on character lists (Python `needle in hay` for
strings). -/
def containsSub (needle : List Char) : List Char → Bool
  | [] => needle.isEmpty
  | c :: cs => List.isPrefixOf needle (c :: cs) || containsSub needle cs

/-- The geometry handling of `get_probe_info`:
`geometry = data.get("geometry")`, then
`if geometry and "coordinates" in geometry: longitude, latitude = geometry["coordinates"]`,
defaulting both coordinates to `"N/A"`.  `none` marks the paths where
Python raises: `in` on a non-container, indexing a list or string with a
string key, or unpacking something that is not a 2-element sequence. -/
def geometryCoords : Option Json → Option (Json × Json)
  | none => some (.str "N/A", .str "N/A")
  | some g =>
    if g.truthy = false then some (.str "N/A", .str "N/A")
    else
      match g with
      | .obj kvs =>
        match kvs.get "coordinates" with
        | none => some (.str "N/A", .str "N/A")
        | some c => unpackPair c
      | .arr xs =>
        if xs.containsVal (.str "coordinates") then none
        else some (.str "N/A", .str "N/A")
      | .str s =>
        if containsSub "coordinates".data s.data then none
        else some (.str "N/A", .str "N/A")
      | _ => none

/-- Two-digit zero padding, as `%m %d %H %M %S` render. -/
def pad2 (n : Nat) : String :=
  if n < 10 then "0" ++ toString n else toString n

/-- Civil date from days since the Unix epoch (standard era-based
conversion on integers). -/
def civilFromDays (z0 : Int) : Int × Int × Int :=
  let z := z0 + 719468
  let era := z.ediv 146097
  let doe := z.emod 146097
  let yoe := (doe - doe.ediv 1460 + doe.ediv 36524 - doe.ediv 146096).ediv 365
  let y := yoe + era * 400
  let doy := doe - (365 * yoe + yoe.ediv 4 - yoe.ediv 100)
  let mp := (5 * doy + 2).ediv 153
  let d := doy - (153 * mp + 2).ediv 5 + 1
  let m := mp + (if mp < 10 then 3 else -9)
  (if m ≤ 2 then y + 1 else y, m, d)

/-- `datetime.fromtimestamp(ts, tz).strftime('%Y-%m-%d %H:%M:%S')` for the
Europe/Paris zone, modelled at its standard offset UTC+1 (the DST shift is
not modelled; no claim inspects the rendered digits). -/
def formatTimestampInt (ts : Int) : String :=
  let t := ts + 3600
  let days := t.ediv 86400
  let secs := (t.emod 86400).toNat
  let ymd := civilFromDays days
  toString ymd.1 ++ "-" ++ pad2 ymd.2.1.toNat ++ "-" ++ pad2 ymd.2.2.toNat
    ++ " " ++ pad2 (secs / 3600) ++ ":" ++ pad2 (secs % 3600 / 60)
    ++ ":" ++ pad2 (secs % 60)

/-- The inner `format_timestamp` of `get_probe_info`:
`datetime.fromtimestamp(ts, tz).strftime(...) if ts else "N/A"`.  A falsy
value (absent key, `null`, `0`, …) gives the absent-marker; a number is
rendered; Python `True` counts as the integer 1; any other truthy value
raises (`none`). -/
def format_timestamp : Option Json → Option String
  | none => some "N/A"
  | some j =>
    if j.truthy = false then some "N/A"
    else
      match j with
      | .num n => some (formatTimestampInt n)
      | .bool _ => some (formatTimestampInt 1)
      | _ => none

/-- `data.get("status", {}).get("name", "Unknown")`: absent status gives
`"Unknown"`; a status object gives its `name` value or `"Unknown"`; a
non-dict status value raises (`none`). -/
def statusField (data : JsonObj) : Option Json :=
  match data.get "status" with
  | none => some (.str "Unknown")
  | some (.obj kvs) => some ((kvs.get "name").getD (.str "Unknown"))
  | some _ => none

/-- `tag["name"] for tag in tags`: every element must be a dict whose
`name` is a string (a missing key or non-string name makes the join
raise). -/
def collectTagNames : JsonArr → Option (List String)
  | .nil => some []
  | .cons (.obj kvs) rest =>
    match kvs.get "name" with
    | some (.str s) => (collectTagNames rest).map (s :: ·)
    | _ => none
  | .cons _ _ => none

/-- The `Tags` entry:
`", ".join(tag["name"] for tag in data.get("tags", [])) if data.get("tags") else "N/A"`. -/
def tagsField (data : JsonObj) : Option String :=
  match data.get "tags" with
  | none => some "N/A"
  | some j =>
    if j.truthy = false then some "N/A"
    else
      match j with
      | .arr xs => (collectTagNames xs).map (String.intercalate ", ")
      | _ => none

/-- The record dictionary built by `get_probe_info` on a 200 response with
object body `data` — `none` when any of the extraction steps raises. -/
def buildRecord (data : JsonObj) : Option (List (String × Json)) :=
  (geometryCoords (data.get "geometry")).bind (fun ll =>
  (format_timestamp (data.get "first_connected")).bind (fun fc =>
  (format_timestamp (data.get "last_connected")).bind (fun lc =>
  (statusField data).bind (fun st =>
  (tagsField data).map (fun tg =>
    [("ID", (data.get "id").getD (.str "N/A")),
     ("IPv4", (data.get "address_v4").getD (.str "N/A")),
     ("ASN", (data.get "asn_v4").getD (.str "N/A")),
     ("Pays", (data.get "country_code").getD (.str "N/A")),
     ("Longitude", ll.1), ("Latitude", ll.2),
     ("Status", st),
     ("First Connected", .str fc), ("Last Connected", .str lc),
     ("Tags", .str tg)])))))

/-- `get_probe_info` from `Scrapping.py`: on status 200, normalize the
body (which must be a JSON object for `data.get` to work) into the
ten-field record; on any other status return `None`. -/
def get_probe_info (resp : Response) : FetchResult :=
  if resp.status_code = 200 then
    match resp.body with
    | .obj data =>
      match buildRecord data with
      | some r => .record r
      | none => .error
    | _ => .error
  else .absent

/-- The accumulation loop of `main`: walk the ids in order, append each
returned (truthy, i.e. non-empty) record, propagate an uncaught
exception as `none`. -/
def collect_probes (fetch : Nat → Response) : List Nat → Option (List (List (String × Json)))
  | [] => some []
  | i :: rest =>
    match get_probe_info (fetch i) with
    | .error => none
    | .absent => collect_probes fetch rest
    | .record r =>
      if r.isEmpty then collect_probes fetch rest
      else (collect_probes fetch rest).map (r :: ·)

/-- `range(start_id, end_id + 1)`: the inclusive id range `main` walks. -/
def idRange (startId endId : Nat) : List Nat :=
  List.range' startId (endId + 1 - startId)

/-- A well-behaved endpoint at id `i`: if the response yields a record,
its `ID` entry is `i` (the API returns the probe that was asked for). -/
def fetchIdOk (fetch : Nat → Response) (i : Nat) : Bool :=
  match get_probe_info (fetch i) with
  | .record r => r.lookup "ID" == some (.num (i : Int))
  | _ => true

/-- A fetch endpoint used to witness the skip property: id 2 answers 404,
other ids answer 200 with a body carrying their own id. -/
def fetchW : Nat → Response := fun i =>
  if i = 2 then ⟨404, .null⟩
  else ⟨200, .obj (.cons "id" (.num (i : Int)) .nil)⟩

/-- The ten field names of a normalized record, in construction order. -/
def recordFieldNames : List String :=
  ["ID", "IPv4", "ASN", "Pays", "Longitude", "Latitude", "Status",
   "First Connected", "Last Connected", "Tags"]

/-- The all-absent 200 response: an empty JSON object body. -/
def emptyBodyResp : Response := ⟨200, .obj .nil⟩

/-- The record `get_probe_info` builds from an empty object body: every
field bound to its absent-marker. -/
def allMarkersRecord : List (String × Json) :=
  [("ID", .str "N/A"), ("IPv4", .str "N/A"), ("ASN", .str "N/A"),
   ("Pays", .str "N/A"), ("Longitude", .str "N/A"), ("Latitude", .str "N/A"),
   ("Status", .str "Unknown"), ("First Connected", .str "N/A"),
   ("Last Connected", .str "N/A"), ("Tags", .str "N/A")]

/-- Index of the last occurrence of `c`, or `-1` when absent (Python
`str.rfind`). -/
def lastIdxOf (c : Char) : List Char → Int
  | [] => -1
  | x :: xs =>
    let r := lastIdxOf c xs
    if r ≥ 0 then r + 1 else if x = c then 0 else -1

/-- The root part of `os.path.splitext` (posix): split at the last dot
when it lies after the last separator and the basename is not all dots up
to it; otherwise keep the whole name. -/
def splitextRoot (s : String) : String :=
  let cs := s.data
  let sepIdx := lastIdxOf '/' cs
  let dotIdx := lastIdxOf '.' cs
  if dotIdx > sepIdx then
    if ((cs.drop (sepIdx + 1).toNat).take (dotIdx - sepIdx - 1).toNat).any
        (fun ch => ch != '.') then
      String.mk (cs.take dotIdx.toNat)
    else s
  else s

/-- `get_output_filename` from `Scrapping.py`:
`{"csv": ".csv", "json": ".json", "txt": ".txt"}.get(fmt, ".csv")`
appended to `os.path.splitext(base_name)[0]`. -/
def get_output_filename (base_name output_format : String) : String :=
  let ext := (([("csv", ".csv"), ("json", ".json"), ("txt", ".txt")]
    : List (String × String)).lookup output_format).getD ".csv"
  splitextRoot base_name ++ ext

/-- The user-visible outcome of `export_data`: the "nothing to export"
notice or the success confirmation naming the file. -/
inductive ExportSignal where
  | nothingToExport : ExportSignal
  | exported (filename : String) : ExportSignal
deriving DecidableEq, Repr

/-- Outcome of `export_data`: an uncaught exception, or a normal return
recording which file (if any) was written and which notice was printed. -/
inductive ExportResult where
  | error : ExportResult
  | done (written : Option String) (signal : ExportSignal) : ExportResult
deriving DecidableEq, Repr

/-- `csv.DictWriter(..., fieldnames=probes[0].keys()); writerows(probes)`
raises `ValueError` when some row holds a key outside the header row's
keys; this is the no-raise condition. -/
def csvWritable (probes : List (List (String × Json))) : Bool :=
  let keys0 := (probes.headD []).map Prod.fst
  probes.all (fun row => row.all (fun kv => keys0.contains kv.1))

/-- The txt branch indexes every record with the ten field names; this is
its no-`KeyError` condition. -/
def txtWritable (probes : List (List (String × Json))) : Bool :=
  probes.all (fun row => recordFieldNames.all (fun k => (row.lookup k).isSome))

/-- `export_data` from `Scrapping.py`: empty input short-circuits with the
"nothing to export" notice and no file; the three known formats write one
file; an unrecognized format matches no branch, writes nothing, and still
prints the success notice naming the file. -/
def export_data (probes : List (List (String × Json)))
    (filename output_format : String) : ExportResult :=
  if probes.isEmpty then .done none .nothingToExport
  else if output_format = "csv" then
    if csvWritable probes then .done (some filename) (.exported filename)
    else .error
  else if output_format = "json" then .done (some filename) (.exported filename)
  else if output_format = "txt" then
    if txtWritable probes then .done (some filename) (.exported filename)
    else .error
  else .done none (.exported filename)

/-- The extension table as the spec words it: `.csv`, `.json`, `.txt` for
the three formats, `.csv` as the fallback for anything unrecognized.
Stated from the spec's sentence, to be compared with the code's
dictionary lookup. -/
def specCanonicalExt (fmt : String) : String :=
  if fmt = "csv" then ".csv"
  else if fmt = "json" then ".json"
  else if fmt = "txt" then ".txt"
  else ".csv"

/-- C6: the computed output filename is the base with its extension
stripped (kept whole when it has none) and the canonical extension for
the format appended; in particular `"probes.old"` with format `"txt"`
becomes `"probes.txt"` — replaced, not appended. -/

theorem filter_probes_eq_filter (probes : List Probe) (country : Option String)
    (connected : Option Bool) (fa la : Option DateTime) :
    filter_probes probes country connected fa la
      = probes.filter (keepProbe country connected fa la) := by
  induction probes with
  | nil => rfl
  | cons p rest ih =>
    by_cases h1 : countrySkip country p
    · simp [filter_probes, keepProbe, h1, List.filter, ih]
    · by_cases h2 : connectedSkip connected p
      · simp [filter_probes, keepProbe, h1, h2, List.filter, ih]
      · by_cases h3 : firstSkip fa p
        · simp [filter_probes, keepProbe, h1, h2, h3, List.filter, ih]
        · by_cases h4 : lastSkip la p
          · simp [filter_probes, keepProbe, h1, h2, h3, h4, List.filter, ih]
          · simp [filter_probes, keepProbe, h1, h2, h3, h4, List.filter, ih]

/-- The four optional criteria accepted by `filter_probes`, bundled the way
`main` passes them (unset criterion = `none` = no constraint). -/

theorem countrySkip_orElse (x y : Option String) (p : Probe)
    (h : x = none ∨ y = none) :
    countrySkip (x <|> y) p = (countrySkip x p || countrySkip y p) := by
  rcases h with h | h
  · subst h; cases y <;> simp [countrySkip, Option.orElse]
  · subst h; cases x <;> simp [countrySkip, Option.orElse]

theorem connectedSkip_orElse (x y : Option Bool) (p : Probe)
    (h : x = none ∨ y = none) :
    connectedSkip (x <|> y) p = (connectedSkip x p || connectedSkip y p) := by
  rcases h with h | h
  · subst h; cases y <;> simp [connectedSkip, Option.orElse]
  · subst h; cases x <;> simp [connectedSkip, Option.orElse]

theorem firstSkip_orElse (x y : Option DateTime) (p : Probe)
    (h : x = none ∨ y = none) :
    firstSkip (x <|> y) p = (firstSkip x p || firstSkip y p) := by
  rcases h with h | h
  · subst h; cases y <;> simp [firstSkip, Option.orElse]
  · subst h; cases x <;> simp [firstSkip, Option.orElse]

theorem lastSkip_orElse (x y : Option DateTime) (p : Probe)
    (h : x = none ∨ y = none) :
    lastSkip (x <|> y) p = (lastSkip x p || lastSkip y p) := by
  rcases h with h | h
  · subst h; cases y <;> simp [lastSkip, Option.orElse]
  · subst h; cases x <;> simp [lastSkip, Option.orElse]

theorem keep_not_or_split (x1 x2 x3 x4 y1 y2 y3 y4 : Bool) :
    (!(x1 || y1) && !(x2 || y2) && !(x3 || y3) && !(x4 || y4))
      = ((!x1 && !x2 && !x3 && !x4) && (!y1 && !y2 && !y3 && !y4)) := by
  cases x1 <;> cases x2 <;> cases x3 <;> cases x4 <;>
    cases y1 <;> cases y2 <;> cases y3 <;> cases y4 <;> rfl

theorem keepProbe_merge (a b : Criteria) (p : Probe) (h : a.DisjointWith b) :
    keepProbe (a.merge b).country (a.merge b).connected
        (a.merge b).firstConnectedAfter (a.merge b).lastConnectedAfter p
      = (keepProbe a.country a.connected a.firstConnectedAfter a.lastConnectedAfter p
          && keepProbe b.country b.connected b.firstConnectedAfter b.lastConnectedAfter p) := by
  obtain ⟨h1, h2, h3, h4⟩ := h
  simp only [keepProbe, Criteria.merge,
    countrySkip_orElse _ _ _ h1, connectedSkip_orElse _ _ _ h2,
    firstSkip_orElse _ _ _ h3, lastSkip_orElse _ _ _ h4]
  exact keep_not_or_split _ _ _ _ _ _ _ _

theorem filter_inter_filter {α : Type} [DecidableEq α] (xs : List α) (p q : α → Bool) :
    (xs.filter p) ∩ (xs.filter q) = xs.filter (fun a => p a && q a) := by
  rw [List.inter_def, List.filter_filter]
  apply List.filter_congr
  intro a ha
  by_cases hq : q a
  · simp [List.elem_eq_mem, List.mem_filter, ha, hq]
  · simp [List.elem_eq_mem, List.mem_filter, ha, hq]

theorem Json.eqStr_iff (j : Json) (s : String) : j.eqStr s = true ↔ j = .str s := by
  cases j <;> simp [Json.eqStr]

/-- C2: filtering with two disjointly-supplied criteria records together
equals the order-preserving intersection of filtering with each alone. -/
theorem filter_conjunction_is_intersection (xs : List Probe) (a b : Criteria)
    (h : a.DisjointWith b) :
    applyFilter (a.merge b) xs = applyFilter a xs ∩ applyFilter b xs := by
  simp only [applyFilter, filter_probes_eq_filter, filter_inter_filter]
  apply List.filter_congr
  intro p _
  exact keepProbe_merge a b p h

/-- Criteria record supplying only `country = "FR"` (scenario 1). -/

theorem filter_conjunction_is_intersection_witness :
    critA.DisjointWith critB ∧
      applyFilter (critA.merge critB) [probe1, probe2]
        = applyFilter critA [probe1, probe2] ∩ applyFilter critB [probe1, probe2] :=
  ⟨by decide, filter_conjunction_is_intersection [probe1, probe2] critA critB (by decide)⟩

/-- C7: applying `filter_probes` twice with the same criteria gives the
same list as applying it once. -/
theorem filter_probes_idempotent (xs : List Probe) (country : Option String)
    (connected : Option Bool) (fa la : Option DateTime) :
    filter_probes (filter_probes xs country connected fa la) country connected fa la
      = filter_probes xs country connected fa la := by
  simp only [filter_probes_eq_filter, List.filter_filter]
  apply List.filter_congr
  intro p _
  exact Bool.and_self _

/-- C9: with every criterion unset, `filter_probes` is the identity. -/
theorem filter_probes_no_criteria_identity (xs : List Probe) :
    filter_probes xs none none none none = xs := by
  induction xs with
  | nil => rfl
  | cons p rest ih =>
    simp [filter_probes, countrySkip, connectedSkip, firstSkip, lastSkip, ih]

/-- C8: `connected = true` passes exactly the records whose `Status` is
the string `"Connected"`, `connected = false` exactly the others — no
third pass-through state — and on the scenario-2 pair the results are
`[probe1]` and `[probe2]` respectively. -/
theorem connected_filter_two_state :
    (∀ (xs : List Probe) (country : Option String) (fa la : Option DateTime) (r : Probe),
        r ∈ filter_probes xs country (some true) fa la → r.status = Json.str "Connected") ∧
    (∀ (xs : List Probe) (country : Option String) (fa la : Option DateTime) (r : Probe),
        r ∈ filter_probes xs country (some false) fa la → r.status ≠ Json.str "Connected") ∧
    filter_probes [probe1, probe2] none (some true) none none = [probe1] ∧
    filter_probes [probe1, probe2] none (some false) none none = [probe2] := by
  refine ⟨?_, ?_, by decide, by decide⟩
  · intro xs country fa la r hm
    rw [filter_probes_eq_filter] at hm
    have hk := (List.mem_filter.mp hm).2
    simp [keepProbe, connectedSkip, Bool.and_eq_true] at hk
    obtain ⟨⟨⟨-, h2⟩, -⟩, -⟩ := hk
    exact (Json.eqStr_iff _ _).mp h2
  · intro xs country fa la r hm
    rw [filter_probes_eq_filter] at hm
    have hk := (List.mem_filter.mp hm).2
    simp [keepProbe, connectedSkip, Bool.and_eq_true] at hk
    obtain ⟨⟨⟨-, h2⟩, -⟩, -⟩ := hk
    intro hc
    have : r.status.eqStr "Connected" = true := (Json.eqStr_iff _ _).mpr hc
    rw [h2] at this
    cases this

theorem connected_filter_two_state_witness :
    probe1 ∈ filter_probes [probe1, probe2] none (some true) none none ∧
      probe1.status = Json.str "Connected" :=
  ⟨by decide, connected_filter_two_state.1 [probe1, probe2] none none none probe1 (by decide)⟩

/-- C1 counterexample: on the scenario-3 input with threshold 2021-01-01,
the record whose `First Connected` is the absent-marker is *not* excluded:
the result is `[probe2]`, not `[]`. -/
theorem firstConnectedAfter_na_passes_counterexample :
    probe2.firstConnected = TimeField.na ∧
      filter_probes [probe1, probe2] none none (some date20210101) none = [probe2] := by
  constructor
  · rfl
  · decide

/-- C1 amended: with an active date threshold, a record whose field is the
absent-marker passes through unchecked; only records whose field parses to
an instant strictly earlier than the threshold are excluded.  On the
scenario-3 input the result is `[probe2]`.  Same semantics for
`lastConnectedAfter` against `Last Connected`. -/
theorem firstConnectedAfter_amended :
    (∀ (xs : List Probe) (d : DateTime),
      filter_probes xs none none (some d) none
        = xs.filter (fun p =>
            match p.firstConnected with
            | .na => true
            | .stamp ft => !ft.lt d)) ∧
    (∀ (xs : List Probe) (d : DateTime),
      filter_probes xs none none none (some d)
        = xs.filter (fun p =>
            match p.lastConnected with
            | .na => true
            | .stamp lt2 => !lt2.lt d)) ∧
    filter_probes [probe1, probe2] none none (some date20210101) none = [probe2] := by
  refine ⟨?_, ?_, by decide⟩
  · intro xs d
    rw [filter_probes_eq_filter]
    apply List.filter_congr
    intro p _
    simp only [keepProbe, countrySkip, connectedSkip, firstSkip, lastSkip]
    cases p.firstConnected <;> simp
  · intro xs d
    rw [filter_probes_eq_filter]
    apply List.filter_congr
    intro p _
    simp only [keepProbe, countrySkip, connectedSkip, firstSkip, lastSkip]
    cases p.lastConnected <;> simp

/-- One HTTP response, as the fetcher sees it: a status code and a parsed
JSON body. -/

theorem get_probe_info_record_status (resp : Response) (r : List (String × Json))
    (h : get_probe_info resp = .record r) : resp.status_code = 200 := by
  by_cases hs : resp.status_code = 200
  · exact hs
  · unfold get_probe_info at h
    rw [if_neg hs] at h
    cases h

theorem collect_probes_mem (fetch : Nat → Response) (ids : List Nat)
    (probes : List (List (String × Json)))
    (h : collect_probes fetch ids = some probes) :
    ∀ r ∈ probes, ∃ i ∈ ids, get_probe_info (fetch i) = .record r := by
  induction ids generalizing probes with
  | nil =>
    intro r hr
    unfold collect_probes at h
    cases h
    cases hr
  | cons i rest ih =>
    intro r hr
    unfold collect_probes at h
    cases hg : get_probe_info (fetch i) <;> rw [hg] at h
    · cases h
    · obtain ⟨j, hj, hrec⟩ := ih probes h r hr
      exact ⟨j, List.mem_cons_of_mem i hj, hrec⟩
    case record r0 =>
      dsimp only at h
      by_cases he : r0.isEmpty
      · rw [if_pos he] at h
        obtain ⟨j, hj, hrec⟩ := ih probes h r hr
        exact ⟨j, List.mem_cons_of_mem i hj, hrec⟩
      · rw [if_neg he] at h
        cases hc : collect_probes fetch rest with
        | none => rw [hc] at h; cases h
        | some tailProbes =>
          rw [hc] at h
          simp only [Option.map_some'] at h
          cases h
          rcases List.mem_cons.mp hr with hEq | hTail
          · exact ⟨i, List.mem_cons_self i rest, by rw [hg, hEq]⟩
          · obtain ⟨j, hj, hrec⟩ := ih tailProbes hc r hTail
            exact ⟨j, List.mem_cons_of_mem i hj, hrec⟩

/-- C3: a non-200 response makes `get_probe_info` return the absent
signal (`None`, not an exception), and — provided the endpoint labels each
returned record with the id that was asked for — no record for that id
appears in the driver's accumulated list. -/
theorem non200_probe_skipped (fetch : Nat → Response) (startId endId pid : Nat)
    (hpid : (fetch pid).status_code ≠ 200)
    (hok : ∀ i ∈ idRange startId endId, fetchIdOk fetch i = true) :
    get_probe_info (fetch pid) = .absent ∧
      ∀ probes, collect_probes fetch (idRange startId endId) = some probes →
        ∀ r ∈ probes, r.lookup "ID" ≠ some (Json.num (pid : Int)) := by
  constructor
  · unfold get_probe_info
    rw [if_neg hpid]
  · intro probes hc r hr hid
    obtain ⟨i, hi, hrec⟩ := collect_probes_mem fetch _ probes hc r hr
    have hik := hok i hi
    unfold fetchIdOk at hik
    rw [hrec] at hik
    have hlook : r.lookup "ID" = some (Json.num (i : Int)) := eq_of_beq hik
    rw [hid] at hlook
    have hpi : (pid : Int) = (i : Int) := by
      injection hlook with h1
      injection h1
    have : pid = i := Int.ofNat_inj.mp hpi
    subst this
    exact hpid (get_probe_info_record_status _ _ hrec)

/-- A fetch endpoint used to witness the skip property: id 2 answers 404,
other ids answer 200 with a body carrying their own id. -/

theorem non200_probe_skipped_witness :
    (fetchW 2).status_code ≠ 200 ∧
      (get_probe_info (fetchW 2) = .absent ∧
        ∀ probes, collect_probes fetchW (idRange 1 3) = some probes →
          ∀ r ∈ probes, r.lookup "ID" ≠ some (Json.num (2 : Int))) :=
  ⟨by decide, non200_probe_skipped fetchW 1 3 2 (by decide) (by decide)⟩

/-- The ten field names of a normalized record, in construction order. -/

theorem buildRecord_spec (data : JsonObj) (r : List (String × Json))
    (h : buildRecord data = some r) :
    r.map Prod.fst = recordFieldNames
      ∧ (data.get "id" = none → r.lookup "ID" = some (.str "N/A"))
      ∧ (data.get "address_v4" = none → r.lookup "IPv4" = some (.str "N/A"))
      ∧ (data.get "asn_v4" = none → r.lookup "ASN" = some (.str "N/A"))
      ∧ (data.get "country_code" = none → r.lookup "Pays" = some (.str "N/A"))
      ∧ (data.get "geometry" = none →
          r.lookup "Longitude" = some (.str "N/A")
            ∧ r.lookup "Latitude" = some (.str "N/A"))
      ∧ (data.get "status" = none → r.lookup "Status" = some (.str "Unknown"))
      ∧ (data.get "first_connected" = none →
          r.lookup "First Connected" = some (.str "N/A"))
      ∧ (data.get "last_connected" = none →
          r.lookup "Last Connected" = some (.str "N/A"))
      ∧ (data.get "tags" = none → r.lookup "Tags" = some (.str "N/A")) := by
  unfold buildRecord at h
  simp only [Option.bind_eq_some, Option.map_eq_some'] at h
  obtain ⟨ll, hg, fc, hfc, lc, hlc, st, hst, tg, htg, hr⟩ := h
  subst hr
  refine ⟨by rfl, ?_, ?_, ?_, ?_, ?_, ?_, ?_, ?_, ?_⟩
  · intro hid
    simp [List.lookup, hid]
  · intro hip
    simp [List.lookup, hip]
  · intro hasn
    simp [List.lookup, hasn]
  · intro hcc
    simp [List.lookup, hcc]
  · intro hgeo
    rw [hgeo] at hg
    have : ll = (Json.str "N/A", Json.str "N/A") := by
      cases hg
      rfl
    subst this
    constructor <;> simp [List.lookup]
  · intro hstat
    unfold statusField at hst
    rw [hstat] at hst
    have : st = Json.str "Unknown" := by
      cases hst
      rfl
    subst this
    simp [List.lookup]
  · intro hfirst
    rw [hfirst] at hfc
    have : fc = "N/A" := by
      cases hfc
      rfl
    subst this
    simp [List.lookup]
  · intro hlast
    rw [hlast] at hlc
    have : lc = "N/A" := by
      cases hlc
      rfl
    subst this
    simp [List.lookup]
  · intro htag
    unfold tagsField at htg
    rw [htag] at htg
    have : tg = "N/A" := by
      cases htg
      rfl
    subst this
    simp [List.lookup]

/-- C4: whenever `get_probe_info` returns a record, the record binds
exactly the ten declared field names, in order — no field is left unset —
and every field whose source key the body omits is bound to its explicit
absent-marker (`"N/A"`, or `"Unknown"` for the status). -/
theorem get_probe_info_fields_total (resp : Response) (r : List (String × Json))
    (h : get_probe_info resp = .record r) :
    r.map Prod.fst = recordFieldNames
      ∧ ∀ data, resp.body = .obj data →
          ((data.get "id" = none → r.lookup "ID" = some (.str "N/A"))
            ∧ (data.get "address_v4" = none → r.lookup "IPv4" = some (.str "N/A"))
            ∧ (data.get "asn_v4" = none → r.lookup "ASN" = some (.str "N/A"))
            ∧ (data.get "country_code" = none → r.lookup "Pays" = some (.str "N/A"))
            ∧ (data.get "geometry" = none →
                r.lookup "Longitude" = some (.str "N/A")
                  ∧ r.lookup "Latitude" = some (.str "N/A"))
            ∧ (data.get "status" = none → r.lookup "Status" = some (.str "Unknown"))
            ∧ (data.get "first_connected" = none →
                r.lookup "First Connected" = some (.str "N/A"))
            ∧ (data.get "last_connected" = none →
                r.lookup "Last Connected" = some (.str "N/A"))
            ∧ (data.get "tags" = none → r.lookup "Tags" = some (.str "N/A"))) := by
  unfold get_probe_info at h
  by_cases hs : resp.status_code = 200
  · rw [if_pos hs] at h
    cases hbody : resp.body with
    | null => rw [hbody] at h; cases h
    | bool b => rw [hbody] at h; cases h
    | num n => rw [hbody] at h; cases h
    | str s => rw [hbody] at h; cases h
    | arr xs => rw [hbody] at h; cases h
    | obj data =>
      rw [hbody] at h
      dsimp only at h
      cases hbr : buildRecord data with
      | none => rw [hbr] at h; cases h
      | some r0 =>
        rw [hbr] at h
        dsimp only at h
        have hr0 : r0 = r := by
          cases h
          rfl
        subst hr0
        obtain ⟨hmap, hrest⟩ := And.intro (buildRecord_spec data r0 hbr).1
          (buildRecord_spec data r0 hbr).2
        refine ⟨hmap, ?_⟩
        intro data2 hdata2
        have : data = data2 := by
          injection hdata2
        subst this
        exact hrest
  · rw [if_neg hs] at h
    cases h

/-- The all-absent 200 response: an empty JSON object body. -/

theorem get_probe_info_fields_total_witness :
    get_probe_info emptyBodyResp = .record allMarkersRecord ∧
      (allMarkersRecord.map Prod.fst = recordFieldNames
        ∧ ∀ data, emptyBodyResp.body = .obj data →
            ((data.get "id" = none → allMarkersRecord.lookup "ID" = some (.str "N/A"))
              ∧ (data.get "address_v4" = none → allMarkersRecord.lookup "IPv4" = some (.str "N/A"))
              ∧ (data.get "asn_v4" = none → allMarkersRecord.lookup "ASN" = some (.str "N/A"))
              ∧ (data.get "country_code" = none → allMarkersRecord.lookup "Pays" = some (.str "N/A"))
              ∧ (data.get "geometry" = none →
                  allMarkersRecord.lookup "Longitude" = some (.str "N/A")
                    ∧ allMarkersRecord.lookup "Latitude" = some (.str "N/A"))
              ∧ (data.get "status" = none → allMarkersRecord.lookup "Status" = some (.str "Unknown"))
              ∧ (data.get "first_connected" = none →
                  allMarkersRecord.lookup "First Connected" = some (.str "N/A"))
              ∧ (data.get "last_connected" = none →
                  allMarkersRecord.lookup "Last Connected" = some (.str "N/A"))
              ∧ (data.get "tags" = none → allMarkersRecord.lookup "Tags" = some (.str "N/A")))) :=
  ⟨by decide, get_probe_info_fields_total emptyBodyResp allMarkersRecord (by decide)⟩

/-- C5: exporting the empty collection writes no file and signals
"nothing to export" (a normal return, not an exception), whatever the
format and filename. -/
theorem export_data_empty_nothing (filename output_format : String) :
    export_data [] filename output_format = .done none .nothingToExport := rfl

/-- C10: a non-empty collection with a format outside csv/json/txt writes
no file, yet returns normally with the success signal naming the computed
filename. -/
theorem export_data_unknown_format_no_file (probes : List (List (String × Json)))
    (base fmt : String) (hne : probes ≠ [])
    (hfmt : fmt ∉ (["csv", "json", "txt"] : List String)) :
    export_data probes (get_output_filename base fmt) fmt
      = .done none (.exported (get_output_filename base fmt)) := by
  have h1 : fmt ≠ "csv" := fun h => hfmt (by rw [h]; simp)
  have h2 : fmt ≠ "json" := fun h => hfmt (by rw [h]; simp)
  have h3 : fmt ≠ "txt" := fun h => hfmt (by rw [h]; simp)
  have hne2 : probes.isEmpty = false := by
    cases probes with
    | nil => exact absurd rfl hne
    | cons p rest => rfl
  unfold export_data
  rw [hne2, if_neg h1, if_neg h2, if_neg h3]
  rfl

theorem export_data_unknown_format_no_file_witness :
    ([allMarkersRecord] : List (List (String × Json))) ≠ []
      ∧ "xml" ∉ (["csv", "json", "txt"] : List String)
      ∧ export_data [allMarkersRecord] (get_output_filename "probes" "xml") "xml"
          = .done none (.exported (get_output_filename "probes" "xml")) :=
  ⟨by decide, by decide,
    export_data_unknown_format_no_file [allMarkersRecord] "probes" "xml"
      (by decide) (by decide)⟩

theorem lastIdxOf_ge_neg_one (c : Char) (cs : List Char) :
    -1 ≤ lastIdxOf c cs := by
  induction cs with
  | nil => simp [lastIdxOf]
  | cons x xs ih =>
    simp only [lastIdxOf]
    by_cases hr : lastIdxOf c xs ≥ 0
    · rw [if_pos hr]
      omega
    · rw [if_neg hr]
      by_cases hx : x = c
      · rw [if_pos hx]
        omega
      · rw [if_neg hx]

theorem lastIdxOf_of_not_mem (c : Char) (cs : List Char) (h : c ∉ cs) :
    lastIdxOf c cs = -1 := by
  induction cs with
  | nil => rfl
  | cons x xs ih =>
    have hx : x ≠ c := fun he => h (he ▸ List.mem_cons_self x xs)
    have hxs : c ∉ xs := fun hm => h (List.mem_cons_of_mem x hm)
    simp only [lastIdxOf, ih hxs]
    rw [if_neg (by omega), if_neg hx]

/-- C6: the computed output filename is the base with its extension
stripped (kept whole when it has none) and the canonical extension for
the format appended; in particular `"probes.old"` with format `"txt"`
becomes `"probes.txt"` — replaced, not appended. -/
theorem get_output_filename_replaces_extension :
    (∀ base fmt, get_output_filename base fmt
        = splitextRoot base ++ specCanonicalExt fmt)
      ∧ (∀ base : String, (∀ ch ∈ base.data, ch ≠ '.') → splitextRoot base = base)
      ∧ get_output_filename "probes.old" "txt" = "probes.txt" := by
  refine ⟨?_, ?_, by decide⟩
  · intro base fmt
    by_cases h1 : fmt = "csv"
    · subst h1; rfl
    · by_cases h2 : fmt = "json"
      · subst h2; rfl
      · by_cases h3 : fmt = "txt"
        · subst h3; rfl
        · have b1 : (fmt == "csv") = false := by simp [h1]
          have b2 : (fmt == "json") = false := by simp [h2]
          have b3 : (fmt == "txt") = false := by simp [h3]
          unfold get_output_filename specCanonicalExt
          rw [if_neg h1, if_neg h2, if_neg h3]
          simp [List.lookup, b1, b2, b3]
  · intro base h
    have hdot : ('.' : Char) ∉ base.data := fun hm => h '.' hm rfl
    have hd := lastIdxOf_of_not_mem '.' base.data hdot
    have hs := lastIdxOf_ge_neg_one '/' base.data
    simp only [splitextRoot]
    rw [hd, if_neg (by omega)]

theorem get_output_filename_replaces_extension_witness :
    (∀ ch ∈ ("filtered_probes" : String).data, ch ≠ '.')
      ∧ splitextRoot "filtered_probes" = "filtered_probes" :=
  ⟨by decide, get_output_filename_replaces_extension.2.1 "filtered_probes" (by decide)⟩
